import Mathlib

/-
Verification development for the bonbast Telegram bot.

The Python sources (`main.py`, `bonbast_client.py`) are shallowly embedded
below.  Conventions of the embedding:

* Python floats are modelled as exact rationals (`ℚ`).  All numeric literals
  of the source (`1e-9`, thresholds, rates) are exactly representable, and all
  comparisons the claims exercise are far from any binary-rounding boundary,
  so the idealization is faithful for the properties stated here.
* Python dicts that map strings to values are modelled as association lists
  (`List (String × _)`) with `lookupA`/`updAssoc` giving `dict` get/set
  semantics (overwrite in place, append new keys).
* A fallible Python call (an HTTP request that may raise) is modelled as an
  `Except Unit _` value passed in as an argument; `.error` is a raised
  exception, and a propagated exception is an `.error` result.
* `re` character classes `\d`/`\s` are modelled over ASCII digits and
  standard whitespace (`Char.isDigit`/`Char.isWhitespace`); exotic Unicode
  digit forms are outside the model.
* `datetime` values are modelled down to the minute: neither of the two uses
  in the source (`in_quiet`, which compares against `HH:MM` bounds carrying
  zero seconds, and the minute-resolution slot string) can observe seconds,
  since `(h, m, s) ≥ (H, M, 0)` iff `(h, m) ≥ (H, M)` lexicographically and
  `(h, m, s) < (H, M, 0)` iff `(h, m) < (H, M)`.
-/

attribute [local semireducible] Rat.add Rat.sub Rat.mul

namespace Bonbast

/-- Decidable equality for `Except` results, so that concrete runs of the
embedded fallible operations can be checked by `decide`. -/
instance exceptDecEq {ε α : Type} [DecidableEq ε] [DecidableEq α] :
    DecidableEq (Except ε α) := fun a b =>
  match a, b with
  | .error e, .error f =>
    if h : e = f then isTrue (by rw [h]) else isFalse (by simp [h])
  | .error _, .ok _ => isFalse (by simp)
  | .ok _, .error _ => isFalse (by simp)
  | .ok x, .ok y =>
    if h : x = y then isTrue (by rw [h]) else isFalse (by simp [h])

/-- Absolute value on `ℚ`, modelling Python `abs` (kept executable and
kernel-reducible, used instead of the lattice `|·|`). -/
def ratAbs (q : ℚ) : ℚ := if q < 0 then -q else q

/-- Rounding to the nearest integer, modelling Python `round` on the values
the source feeds it (display formatting only; the half-integer tie direction
is never observed by any claim). -/
def ratRound (q : ℚ) : ℤ := Int.fdiv (2 * q.num + (q.den : Int)) (2 * (q.den : Int))

/-- The literal `1e-9` used by `build_lines` and `fmt_value` in `main.py`. -/
def eps : ℚ := mkRat 1 1000000000

/-- Wall-clock time of day, hour and minute, modelling `datetime.time` values
produced by `parse_quiet` (whose seconds are always zero). -/
structure TimeHM where
  hour : Nat
  minute : Nat
deriving DecidableEq

/-- Lexicographic `≤` on times of day, the order `datetime.time` uses. -/
def TimeHM.Le (a b : TimeHM) : Prop :=
  a.hour < b.hour ∨ (a.hour = b.hour ∧ a.minute ≤ b.minute)

/-- Lexicographic `<` on times of day. -/
def TimeHM.Lt (a b : TimeHM) : Prop :=
  a.hour < b.hour ∨ (a.hour = b.hour ∧ a.minute < b.minute)

instance (a b : TimeHM) : Decidable (a.Le b) := by
  unfold TimeHM.Le; exact inferInstance

instance (a b : TimeHM) : Decidable (a.Lt b) := by
  unfold TimeHM.Lt; exact inferInstance

/-- A `datetime.datetime` value at the resolution the source observes. -/
structure DateTime where
  year : Nat
  month : Nat
  day : Nat
  hour : Nat
  minute : Nat
deriving DecidableEq

/-- `now.time()` restricted to the fields `in_quiet` can observe. -/
def DateTime.timeOf (d : DateTime) : TimeHM := ⟨d.hour, d.minute⟩

/-- Numeric value of a list of ASCII digit characters (Python `int` on a
digits-only match group). -/
def digitsToNat (ds : List Char) : Nat :=
  ds.foldl (fun acc c => 10 * acc + (c.toNat - '0'.toNat)) 0

/-- Drop leading whitespace, modelling `\s*` in the quiet-window regex. -/
def dropSpaces (cs : List Char) : List Char := cs.dropWhile Char.isWhitespace

/-- Split a maximal run of leading digits, modelling a greedy `\d` group. -/
def spanDigits (cs : List Char) : List Char × List Char :=
  (cs.takeWhile Char.isDigit, cs.dropWhile Char.isDigit)

/-- Embedding of `parse_quiet` from `main.py`: match
`^\s*(\d{1,2}):(\d{2})\s*-\s*(\d{1,2}):(\d{2})\s*$` and check the hour and
minute ranges.  A maximal digit run of length other than 1–2 (resp. exactly
2) makes the anchored regex fail as a whole, which the shape checks below
reproduce. -/
def parse_quiet (s : String) : Option (TimeHM × TimeHM) :=
  let cs := dropSpaces s.data
  match spanDigits cs with
  | (ds1, rest1) =>
    if ds1.length = 0 ∨ 2 < ds1.length then none else
    match rest1 with
    | ':' :: rest2 =>
      match spanDigits rest2 with
      | (ds2, rest3) =>
        if ds2.length ≠ 2 then none else
        match dropSpaces rest3 with
        | '-' :: rest5 =>
          match spanDigits (dropSpaces rest5) with
          | (ds3, rest7) =>
            if ds3.length = 0 ∨ 2 < ds3.length then none else
            match rest7 with
            | ':' :: rest8 =>
              match spanDigits rest8 with
              | (ds4, rest9) =>
                if ds4.length ≠ 2 then none else
                if dropSpaces rest9 ≠ [] then none else
                let h1 := digitsToNat ds1
                let m1 := digitsToNat ds2
                let h2 := digitsToNat ds3
                let m2 := digitsToNat ds4
                if h1 ≤ 23 ∧ h2 ≤ 23 ∧ m1 ≤ 59 ∧ m2 ≤ 59 then
                  some (⟨h1, m1⟩, ⟨h2, m2⟩)
                else none
            | _ => none
        | _ => none
    | _ => none

/-- Embedding of `in_quiet` from `main.py`.  The empty string is falsy in
Python, an unparsable window yields `False`, a degenerate window
(`start == end`) is never quiet, `start < end` is a same-day window and
`start > end` wraps midnight. -/
def in_quiet (now : DateTime) (quiet : String) : Bool :=
  if quiet = "" then false
  else
    match parse_quiet quiet with
    | none => false
    | some (start, stop) =>
      let t := now.timeOf
      if start = stop then false
      else if start.Lt stop then decide (start.Le t ∧ t.Lt stop)
      else decide (start.Le t ∨ t.Lt stop)

/-- JSON scalar values as `main.py` receives them from the upstream feed. -/
inductive JVal where
  | jint (i : Int)
  | jnum (q : ℚ)
  | jstr (s : String)
  | jnull
deriving DecidableEq

/-- Association-list lookup, modelling Python `dict.get` (returns `None` when
the key is absent). -/
def lookupA : List (String × ℚ) → String → Option ℚ
  | [], _ => none
  | (k, v) :: t, key => if k = key then some v else lookupA t key

/-- Association-list store, modelling Python `dict.__setitem__` (overwrite in
place, append when new). -/
def updAssoc : List (String × ℚ) → String → ℚ → List (String × ℚ)
  | [], key, v => [(key, v)]
  | (k, w) :: t, key, v =>
    if k = key then (key, v) :: t else (k, w) :: updAssoc t key v

/-- Lookup in a JSON object, modelling `data.get(key)`. -/
def lookupJ : List (String × JVal) → String → Option JVal
  | [], _ => none
  | (k, v) :: t, key => if k = key then some v else lookupJ t key

/-- Strip whitespace from both ends, modelling Python `str.strip()`. -/
def stripWS (cs : List Char) : List Char :=
  ((cs.dropWhile Char.isWhitespace).reverse.dropWhile Char.isWhitespace).reverse

/-- Decimal/scientific float-literal parsing, modelling Python `float(s)` on
the forms the upstream feed produces: optional sign, digits with an optional
fractional part (or a bare fractional part), and an optional decimal
exponent.  `inf`/`nan` words and underscore separators are outside the
numeric model. -/
def parseFloat? (cs : List Char) : Option ℚ :=
  let signSplit : Bool × List Char :=
    match cs with
    | '-' :: t => (true, t)
    | '+' :: t => (false, t)
    | _ => (false, cs)
  let neg := signSplit.1
  let cs1 := signSplit.2
  let mant : Option (ℚ × List Char) :=
    match spanDigits cs1 with
    | ([], '.' :: t) =>
      match spanDigits t with
      | ([], _) => none
      | (fs, r) => some (mkRat (digitsToNat fs) (10 ^ fs.length), r)
    | ([], _) => none
    | (ds, '.' :: t) =>
      match spanDigits t with
      | (fs, r) =>
        some (mkRat (digitsToNat ds) 1 + mkRat (digitsToNat fs) (10 ^ fs.length), r)
    | (ds, r) => some (mkRat (digitsToNat ds) 1, r)
  match mant with
  | none => none
  | some (m, rest) =>
    let expPart : Option (ℚ × List Char) :=
      match rest with
      | 'e' :: t | 'E' :: t =>
        let esplit : Bool × List Char :=
          match t with
          | '-' :: u => (true, u)
          | '+' :: u => (false, u)
          | _ => (false, t)
        match spanDigits esplit.2 with
        | ([], _) => none
        | (ds, r) =>
          let p := (10 : Nat) ^ digitsToNat ds
          some (if esplit.1 then mkRat 1 p else mkRat (p : Int) 1, r)
      | _ => some (mkRat 1 1, rest)
    match expPart with
    | none => none
    | some (e, r) =>
      if r = [] then some ((if neg then -m else m) * e) else none

/-- Embedding of `to_number` from `main.py`.  The argument is the result of
`data.get(key)`; both an absent key and a JSON `null` are Python `None`.
Numeric values coerce via `float`, strings are stripped, have commas removed,
and are parsed as float literals; everything else is `None`. -/
def to_number : Option JVal → Option ℚ
  | none => none
  | some .jnull => none
  | some (.jint i) => some (mkRat i 1)
  | some (.jnum q) => some q
  | some (.jstr s) =>
    let t := (stripWS s.data).filter (fun c => c ≠ ',')
    if t = [] then none else parseFloat? t

/-- Zero-pad a number to two digits (`%H`, `%M`, `%m`, `%d`, `:02d`). -/
def pad2 (n : Nat) : String := if n < 10 then "0" ++ toString n else toString n

/-- Zero-pad a year to four digits (`%Y` on the source's dates). -/
def pad4 (n : Nat) : String :=
  if n < 10 then "000" ++ toString n
  else if n < 100 then "00" ++ toString n
  else if n < 1000 then "0" ++ toString n
  else toString n

/-- Insert a comma after every third character of a reversed digit list,
the core of Python `f-string` comma grouping. -/
def chunk3Rev : List Char → List Char
  | a :: b :: c :: d :: rest => a :: b :: c :: ',' :: chunk3Rev (d :: rest)
  | l => l

/-- Comma-group a natural number, modelling `f"{n:,}"`. -/
def commaGroup (n : Nat) : String :=
  ⟨(chunk3Rev (toString n).data.reverse).reverse⟩

/-- Comma-group an integer. -/
def intCommas (i : Int) : String :=
  (if i < 0 then "-" else "") ++ commaGroup i.natAbs

/-- Drop trailing occurrences of a character, modelling `str.rstrip(c)`. -/
def rstripChar (c : Char) (s : List Char) : List Char :=
  (s.reverse.dropWhile (fun x => x = c)).reverse

/-- Two-decimal display of a rational, modelling
`f"{n:,.2f}".rstrip("0").rstrip(".")` (decimal rounding idealizes the
binary-float rounding of the source; no claim observes the difference). -/
def floatFmt2 (n : ℚ) : String :=
  let scaled := ratRound (n * mkRat 100 1)
  let a := scaled.natAbs
  let body := commaGroup (a / 100) ++ "." ++ pad2 (a % 100)
  (if n < 0 then "-" else "") ++ ⟨rstripChar '.' (rstripChar '0' body.data)⟩

/-- Embedding of `fmt_value` from `main.py`: non-numbers display as `"-"`,
near-integers of magnitude at least 100 display comma-grouped, everything
else with up to two decimals. -/
def fmt_value (v : Option JVal) : String :=
  match to_number v with
  | none => "-"
  | some n =>
    if ratAbs (n - mkRat (ratRound n) 1) < eps ∧ mkRat 100 1 ≤ ratAbs n then
      intCommas (ratRound n)
    else floatFmt2 n

/-- Embedding of the `Item` dataclass of `main.py`. -/
structure Item where
  code : String
  fa : String
  emoji : String
  sell_key : String
  buy_key : Option String := none
  category : String := "cur"
deriving DecidableEq

/-- The `CURRENCIES` catalog of `main.py`. -/
def CURRENCIES : List Item := [
  ⟨"usd", "دلار آمریکا", "💵", "usd1", some "usd2", "cur"⟩,
  ⟨"eur", "یورو", "💶", "eur1", some "eur2", "cur"⟩,
  ⟨"gbp", "پوند انگلیس", "💷", "gbp1", some "gbp2", "cur"⟩,
  ⟨"chf", "فرانک سوئیس", "🇨🇭", "chf1", some "chf2", "cur"⟩,
  ⟨"cad", "دلار کانادا", "🇨🇦", "cad1", some "cad2", "cur"⟩,
  ⟨"aud", "دلار استرالیا", "🇦🇺", "aud1", some "aud2", "cur"⟩,
  ⟨"sek", "کرون سوئد", "🇸🇪", "sek1", some "sek2", "cur"⟩,
  ⟨"nok", "کرون نروژ", "🇳🇴", "nok1", some "nok2", "cur"⟩,
  ⟨"rub", "روبل روسیه", "🇷🇺", "rub1", some "rub2", "cur"⟩,
  ⟨"thb", "بات تایلند", "🇹🇭", "thb1", some "thb2", "cur"⟩,
  ⟨"sgd", "دلار سنگاپور", "🇸🇬", "sgd1", some "sgd2", "cur"⟩,
  ⟨"hkd", "دلار هنگ‌کنگ", "🇭🇰", "hkd1", some "hkd2", "cur"⟩,
  ⟨"azn", "منات آذربایجان", "🇦🇿", "azn1", some "azn2", "cur"⟩,
  ⟨"amd", "درام ارمنستان", "🇦🇲", "amd1", some "amd2", "cur"⟩,
  ⟨"dkk", "کرون دانمارک", "🇩🇰", "dkk1", some "dkk2", "cur"⟩,
  ⟨"aed", "درهم امارات", "🇦🇪", "aed1", some "aed2", "cur"⟩,
  ⟨"jpy", "ین ژاپن", "🇯🇵", "jpy1", some "jpy2", "cur"⟩,
  ⟨"try", "لیر ترکیه", "🇹🇷", "try1", some "try2", "cur"⟩,
  ⟨"cny", "یوان چین", "🇨🇳", "cny1", some "cny2", "cur"⟩,
  ⟨"sar", "ریال عربستان", "🇸🇦", "sar1", some "sar2", "cur"⟩,
  ⟨"inr", "روپیه هند", "🇮🇳", "inr1", some "inr2", "cur"⟩,
  ⟨"myr", "رینگیت مالزی", "🇲🇾", "myr1", some "myr2", "cur"⟩,
  ⟨"afn", "افغانی افغانستان", "🇦🇫", "afn1", some "afn2", "cur"⟩,
  ⟨"kwd", "دینار کویت", "🇰🇼", "kwd1", some "kwd2", "cur"⟩,
  ⟨"iqd", "دینار عراق", "🇮🇶", "iqd1", some "iqd2", "cur"⟩,
  ⟨"bhd", "دینار بحرین", "🇧🇭", "bhd1", some "bhd2", "cur"⟩,
  ⟨"omr", "ریال عمان", "🇴🇲", "omr1", some "omr2", "cur"⟩,
  ⟨"qar", "ریال قطر", "🇶🇦", "qar1", some "qar2", "cur"⟩]

/-- The `COINS` catalog of `main.py`. -/
def COINS : List Item := [
  ⟨"azadi", "سکه آزادی", "🪙", "azadi1", some "azadi12", "coin"⟩,
  ⟨"emami", "سکه امامی", "🪙", "emami1", some "emami12", "coin"⟩,
  ⟨"nim", "نیم سکه", "🪙", "azadi1_2", some "azadi1_22", "coin"⟩,
  ⟨"rob", "ربع سکه", "🪙", "azadi1_4", some "azadi1_42", "coin"⟩,
  ⟨"gerami", "سکه گرمی", "🪙", "azadi1g", some "azadi1g2", "coin"⟩]

/-- The `METALS` catalog of `main.py`. -/
def METALS : List Item := [
  ⟨"gold18", "طلا ۱۸ عیار", "⚜️", "gol18", none, "metal"⟩,
  ⟨"mithqal", "طلا مثقال", "⚜️", "mithqal", none, "metal"⟩,
  ⟨"ounce", "طلا اونس", "🌍", "ounce", none, "metal"⟩,
  ⟨"btc", "بیت‌کوین", "₿", "bitcoin", none, "metal"⟩]

/-- A chat's per-target configuration, the typed form of the `config` dict of
`main.py` (`default_config` gives every field's fallback, and the source
reads each key through `cfg.get` with exactly these fallbacks). -/
structure Config where
  auto_send : Bool
  interval_min : Nat
  quiet : String
  only_if_changed : Bool
  sellbuy : String
  threshold : ℚ
  selected_cur : List String
  selected_coin : List String
  selected_metal : List String
  triggers_cur : List String
  triggers_coin : List String
  triggers_metal : List String
deriving DecidableEq

/-- `cfg.get("selected", {}).get(cat, [])`. -/
def Config.selectedFor (c : Config) (cat : String) : List String :=
  if cat = "cur" then c.selected_cur
  else if cat = "coin" then c.selected_coin
  else if cat = "metal" then c.selected_metal
  else []

/-- `cfg.get("triggers", {}).get(cat, [])`. -/
def Config.triggersFor (c : Config) (cat : String) : List String :=
  if cat = "cur" then c.triggers_cur
  else if cat = "coin" then c.triggers_coin
  else if cat = "metal" then c.triggers_metal
  else []

/-- Embedding of `default_config()` from `main.py`. -/
def default_config : Config :=
  ⟨false, 5, "", false, "sell", 0,
   CURRENCIES.map Item.code, COINS.map Item.code, METALS.map Item.code,
   [], [], []⟩

/-- Key selection inside the `build_lines` loop:
`it.sell_key if sellbuy == "sell" or not it.buy_key else it.buy_key`. -/
def sellbuyKey (sellbuy : String) (it : Item) : String :=
  match it.buy_key with
  | none => it.sell_key
  | some bk => if sellbuy = "sell" then it.sell_key else bk

/-- The RTL mark (`U+200F`) prepended to every rendered line. -/
def rtl : String := "\u200F"

/-- Accumulator of the `for it in section_items` loop of `build_lines`:
the rendered lines, the fresh last-values dict, and the changed flag. -/
structure LineAcc where
  lines : List String
  new_last : List (String × ℚ)
  changed : Bool
deriving DecidableEq

/-- One iteration of the `build_lines` loop of `main.py`: skip unselected
items; compute the arrow against the *original* `last` map with the `1e-9`
deadband; for trigger items set the changed flag by threshold (`>` 1e-9 when
the threshold is zero or negative, `≥ threshold` otherwise); store the fresh
value whenever it parsed as a number; append the rendered line. -/
def processItem (sellbuy : String) (threshold : ℚ) (selected triggers : List String)
    (data : List (String × JVal)) (last : List (String × ℚ))
    (acc : LineAcc) (it : Item) : LineAcc :=
  if it.code ∉ selected then acc
  else
    let raw := lookupJ data (sellbuyKey sellbuy it)
    let num := to_number raw
    let value_str := fmt_value raw
    let arrowChanged : String × Bool :=
      match num, lookupA last it.code with
      | some n, some prev =>
        let a := if prev + eps < n then " ▲" else if n < prev - eps then " 🔻" else ""
        let c :=
          if it.code ∈ triggers then
            if threshold ≤ 0 then
              (if eps < ratAbs (n - prev) then true else acc.changed)
            else
              (if threshold ≤ ratAbs (n - prev) then true else acc.changed)
          else acc.changed
        (a, c)
      | _, _ => ("", acc.changed)
    let new_last :=
      match num with
      | some n => updAssoc acc.new_last it.code n
      | none => acc.new_last
    let line := rtl ++ it.emoji ++ " " ++ it.fa ++ " : " ++ value_str ++ arrowChanged.1
    ⟨acc.lines ++ [line], new_last, arrowChanged.2⟩

/-- Embedding of `build_lines` from `main.py`.  Returns
`(lines, new_last_values, any_triggered_change)`.  The category is read off
the first item (the source indexes `section_items[0]`; every caller passes a
fixed non-empty catalog); an empty trigger list falls back to the selected
list (`... or selected_codes`); `new_last` starts as a copy of `last`
(`dict(last)`), and `changed` starts `False`. -/
def build_lines (section_items : List Item) (cfg : Config)
    (data : List (String × JVal)) (last : List (String × ℚ)) :
    List String × List (String × ℚ) × Bool :=
  let cat := (section_items.head?.map Item.category).getD ""
  let selected := cfg.selectedFor cat
  let triggers0 := cfg.triggersFor cat
  let triggers := if triggers0 = [] then selected else triggers0
  let acc := section_items.foldl
    (processItem cfg.sellbuy cfg.threshold selected triggers data last)
    ⟨[], last, false⟩
  (acc.lines, acc.new_last, acc.changed)

/-- Embedding of `now_slot_tehran` from `main.py`:
`now.strftime("%Y/%m/%d %H:%M")`. -/
def now_slot_tehran (now : DateTime) : String :=
  pad4 now.year ++ "/" ++ pad2 now.month ++ "/" ++ pad2 now.day ++ " "
    ++ pad2 now.hour ++ ":" ++ pad2 now.minute

/-- Python `str()` on a JSON scalar (the float form idealizes CPython's
shortest-roundtrip float repr; only used inside the rendered header, which no
claim inspects digit-by-digit). -/
def strOfJVal : JVal → String
  | .jint i => toString i
  | .jnum q => if q.den = 1 then toString q.num ++ ".0" else floatFmt2 q
  | .jstr s => s
  | .jnull => "None"

/-- `str(data.get(k, "")).strip()` as used for the header fields. -/
def strField (data : List (String × JVal)) (k : String) : String :=
  match lookupJ data k with
  | none => ""
  | some v => ⟨stripWS (strOfJVal v).data⟩

/-- The date/time header of `send_for_chat`: prefer the upstream
`year/month/day/hour/min` fields when all are non-empty, otherwise format
`now` as `%Y/%m/%d - %H:%M`. -/
def dt_header (data : List (String × JVal)) (now : DateTime) : String :=
  let y := strField data "year"
  let mo := strField data "month"
  let d := strField data "day"
  let hh := strField data "hour"
  let mm := strField data "min"
  if y ≠ "" ∧ mo ≠ "" ∧ d ≠ "" ∧ hh ≠ "" ∧ mm ≠ "" then
    y ++ "/" ++ mo ++ "/" ++ d ++ " - " ++ hh ++ ":" ++ mm
  else
    pad4 now.year ++ "/" ++ pad2 now.month ++ "/" ++ pad2 now.day ++ " - "
      ++ pad2 now.hour ++ ":" ++ pad2 now.minute

/-- A chat's persisted mutable state, the typed form of the `state` dict of
`main.py` (`last_values` split per category as the source reads it, plus the
`last_slot` marker; absent keys are the empty dict / `None`). -/
structure ChatState where
  last_cur : List (String × ℚ)
  last_coin : List (String × ℚ)
  last_metal : List (String × ℚ)
  last_slot : Option String
deriving DecidableEq

/-- A registered chat row as `Storage.get_chat` returns it. -/
structure Chat where
  chat_id : Int
  approved : Bool
  cfg : Config
  state : ChatState
deriving DecidableEq

/-- Observable effect of one `send_for_chat` call: the state row now stored
for the chat (`none` when the chat row does not exist) and the message text
sent through the transport (`none` when nothing was sent). -/
structure SendOutcome where
  newState : Option ChatState
  message : Option String
deriving DecidableEq

/-- The `"_______________________"` section separator. -/
def sepLine : String := "_______________________"

/-- Embedding of `send_for_chat` from `main.py`.  The fetch is passed in as
its result (`.error` models `client.fetch()` raising, which propagates and
happens before any state write).  Faithful control flow: approval/auto-send
gate and quiet gate (both skipped when `force`), fetch, line building over
the three catalogs, the `only_if_changed` decision, the same-minute slot
dedup (which returns *before* the state write), the state write, and the
change suppression (which returns *after* the state write). -/
def send_for_chat (ch? : Option Chat) (force : Bool) (now : DateTime)
    (fetchResult : Except Unit (List (String × JVal))) : Except Unit SendOutcome :=
  match ch? with
  | none => .ok ⟨none, none⟩
  | some ch =>
    let cfg := ch.cfg
    let state := ch.state
    if force = false ∧ (ch.approved = false ∨ cfg.auto_send = false) then
      .ok ⟨some state, none⟩
    else if force = false ∧ in_quiet now cfg.quiet = true then
      .ok ⟨some state, none⟩
    else
      match fetchResult with
      | .error e => .error e
      | .ok data =>
        let header := rtl ++ "✅ نرخ لحظه‌ای ارز و سکه\n" ++ rtl ++ "📅 "
          ++ dt_header data now ++ "\n"
        let rc := build_lines CURRENCIES cfg data state.last_cur
        let rn := build_lines COINS cfg data state.last_coin
        let rm := build_lines METALS cfg data state.last_metal
        let should_send :=
          if cfg.only_if_changed then rc.2.2 || rn.2.2 || rm.2.2 else true
        let slot := now_slot_tehran now
        if force = false ∧ state.last_slot = some slot then
          .ok ⟨some state, none⟩
        else
          let state2 : ChatState := ⟨rc.2.1, rn.2.1, rm.2.1, some slot⟩
          if should_send = false ∧ force = false then
            .ok ⟨some state2, none⟩
          else
            let msgParts := [header]
              ++ (if rc.1 ≠ [] then [String.intercalate "\n" rc.1] else [])
              ++ (if rn.1 ≠ [] then [sepLine ++ "\n" ++ String.intercalate "\n" rn.1] else [])
              ++ (if rm.1 ≠ [] then [sepLine ++ "\n" ++ String.intercalate "\n" rm.1] else [])
            let msg : String := ⟨stripWS (String.intercalate "\n\n" msgParts).data⟩
            .ok ⟨some state2, some msg⟩

/-- One minute-boundary pass of `sender_loop` from `main.py` over the chat
list.  Per chat: the approval/auto-send gate, the interval alignment gate
(`now.minute % interval == 0`, a zero/absent interval falling back to 5), and
the quiet gate, then `send_for_chat(..., force=False)` with the whole body
wrapped in `try/except` — a raised fetch is caught and logged, leaving the
chat's stored state untouched and the loop moving on to the next chat. -/
def sender_tick (now : DateTime) (fetchFor : Int → Except Unit (List (String × JVal)))
    (chats : List Chat) : List (Chat × Option String) :=
  chats.map fun ch =>
    if ch.approved = false ∨ ch.cfg.auto_send = false then (ch, none)
    else
      let interval := if ch.cfg.interval_min = 0 then 5 else ch.cfg.interval_min
      if now.minute % interval ≠ 0 then (ch, none)
      else if in_quiet now ch.cfg.quiet = true then (ch, none)
      else
        match send_for_chat (some ch) false now (fetchFor ch.chat_id) with
        | .error _ => (ch, none)
        | .ok out => ({ ch with state := out.newState.getD ch.state }, out.message)

/-- Observation helper: the message text a `send_for_chat` run sent, `none`
when it sent nothing or the fetch raised. -/
def sentMessage? (r : Except Unit SendOutcome) : Option String :=
  match r with
  | .ok o => o.message
  | .error _ => none

/-- Observation helper: the state row a `send_for_chat` run left stored,
`none` when the chat row was missing or the fetch raised. -/
def storedState? (r : Except Unit SendOutcome) : Option ChatState :=
  match r with
  | .ok o => o.newState
  | .error _ => none

/-- The token cache of `BonbastClient` in `bonbast_client.py`: the `_param`
value and the `_param_ts` acquisition time (seconds). -/
structure ClientState where
  param : Option String
  param_ts : Nat
deriving DecidableEq

/-- The prologue of `fetch_json`: re-extract the token (`_fetch_param`) when
the cache is empty or older than 600 seconds, otherwise use the cached one.
`extract1` is the outcome of a `_fetch_param` call (`.error` models a raised
HTTP error or the `RuntimeError` when the page pattern does not match, in
which case `_param` keeps its previous value). -/
def fetchParamStep (st : ClientState) (now : Nat) (extract1 : Except Unit String) :
    Except Unit (String × ClientState) :=
  match st.param with
  | some tok =>
    if 600 < now - st.param_ts then
      match extract1 with
      | .error e => .error e
      | .ok t => .ok (t, ⟨some t, now⟩)
    else .ok (tok, st)
  | none =>
    match extract1 with
    | .error e => .error e
    | .ok t => .ok (t, ⟨some t, now⟩)

/-- Embedding of `BonbastClient.fetch_json`: the optional initial token
refresh, the primary POST, and on its failure one retry consisting of a
fresh `_fetch_param` (which overwrites the cache on success) and a second
POST whose failure propagates.  `post1`/`post2` give each POST attempt's
outcome as a function of the token it was sent. -/
def fetch_json (st : ClientState) (now : Nat) (extract1 extract2 : Except Unit String)
    (post1 post2 : String → Except Unit (List (String × JVal))) :
    Except Unit (List (String × JVal)) × ClientState :=
  match fetchParamStep st now extract1 with
  | .error e => (.error e, st)
  | .ok (tok, st1) =>
    match post1 tok with
    | .ok d => (.ok d, st1)
    | .error _ =>
      match extract2 with
      | .error e => (.error e, st1)
      | .ok t2 =>
        match post2 t2 with
        | .ok d => (.ok d, ⟨some t2, now⟩)
        | .error e => (.error e, ⟨some t2, now⟩)

/-- The `usd` entry of the `CURRENCIES` catalog. -/
def usdItem : Item := ⟨"usd", "دلار آمریکا", "💵", "usd1", some "usd2", "cur"⟩

/-- The remaining 27 currency catalog entries. -/
def usdRest : List Item := CURRENCIES.tail

/-- A configuration with auto-send on, interval 5, no quiet window,
only-on-change on, sell side, the given absolute threshold, and `usd` as the
only selected and trigger currency. -/
def cfgThr (thr : ℚ) : Config :=
  ⟨true, 5, "", true, "sell", thr, ["usd"], [], [], ["usd"], [], []⟩

/-- The end-to-end scenario configuration: threshold 0. -/
def cfgOnly : Config := cfgThr 0

/-- Scenario state after snapshot A: `usd1 = 500000` was recorded at the
`12:00` slot. -/
def stateA : ChatState := ⟨[("usd", 500000)], [], [], some "2025/10/12 12:00"⟩

/-- The scenario chat at tick B. -/
def chatB : Chat := ⟨1, true, cfgOnly, stateA⟩

/-- Snapshot B: `usd1` still `500000`. -/
def snapB : List (String × JVal) := [("usd1", .jint 500000)]

/-- Tick B, the `12:05` aligned slot. -/
def tickB : DateTime := ⟨2025, 10, 12, 12, 5⟩

/-- Scenario state after the suppressed tick B. -/
def stateB : ChatState := ⟨[("usd", 500000)], [], [], some "2025/10/12 12:05"⟩

/-- The scenario chat at tick C. -/
def chatC : Chat := ⟨1, true, cfgOnly, stateB⟩

/-- Snapshot C: `usd1` moved to `500500`. -/
def snapC : List (String × JVal) := [("usd1", .jint 500500)]

/-- Tick C, the `12:10` aligned slot. -/
def tickC : DateTime := ⟨2025, 10, 12, 12, 10⟩

/-- A first-run chat: approved, auto-send, only-on-change, and a completely
empty stored state (no baseline, no slot marker). -/
def chatFirst : Chat := ⟨1, true, cfgOnly, ⟨[], [], [], none⟩⟩

/-- The scenario configuration with the `23:00-07:00` quiet window. -/
def cfgQuiet : Config :=
  ⟨true, 5, "23:00-07:00", true, "sell", 0, ["usd"], [], [], ["usd"], [], []⟩

/-- A chat inside its quiet window at `tickNight`. -/
def chatQuiet : Chat := ⟨1, true, cfgQuiet, stateA⟩

/-- A scheduled tick at `23:30`, inside the `23:00-07:00` window. -/
def tickNight : DateTime := ⟨2025, 10, 12, 23, 30⟩

/-- An unapproved chat (never eligible for scheduled delivery). -/
def chatOff : Chat := ⟨2, false, cfgOnly, stateA⟩

/-- Snapshot whose `usd1` differs from the `500000` baseline by `1e-10`:
nonzero, but within the `1e-9` comparison deadband. -/
def snapEps : List (String × JVal) :=
  [("usd1", .jnum (500000 + mkRat 1 10000000000))]

/- ------------------------------------------------------------------ -/
/- Helper lemmas                                                       -/
/- ------------------------------------------------------------------ -/

theorem lookupA_updAssoc (l : List (String × ℚ)) (key : String) (v : ℚ) (k : String) :
    lookupA (updAssoc l key v) k = if key = k then some v else lookupA l k := by
  induction l with
  | nil => by_cases h : key = k <;> simp [updAssoc, lookupA, h]
  | cons p t ih =>
    obtain ⟨a, b⟩ := p
    by_cases h1 : a = key <;> by_cases h2 : key = k <;>
      simp_all [updAssoc, lookupA]

theorem lookupA_updAssoc_isSome (l : List (String × ℚ)) (key : String) (v : ℚ)
    (k : String) (h : (lookupA l k).isSome = true) :
    (lookupA (updAssoc l key v) k).isSome = true := by
  rw [lookupA_updAssoc]
  split <;> simp_all

theorem processItem_skip (sb : String) (thr : ℚ) (sel trig : List String)
    (data : List (String × JVal)) (last : List (String × ℚ)) (acc : LineAcc)
    (it : Item) (h : it.code ∉ sel) :
    processItem sb thr sel trig data last acc it = acc := by
  simp [processItem, h]

theorem foldl_processItem_skip (sb : String) (thr : ℚ) (sel trig : List String)
    (data : List (String × JVal)) (last : List (String × ℚ)) (items : List Item)
    (acc : LineAcc) (h : ∀ it ∈ items, it.code ∉ sel) :
    items.foldl (processItem sb thr sel trig data last) acc = acc := by
  induction items generalizing acc with
  | nil => rfl
  | cons it t ih =>
    rw [List.foldl_cons, processItem_skip sb thr sel trig data last acc it
        (h it (List.mem_cons_self it t)),
      ih acc (fun j hj => h j (List.mem_cons_of_mem it hj))]

theorem processItem_changed_of_last_nil (sb : String) (thr : ℚ)
    (sel trig : List String) (data : List (String × JVal)) (acc : LineAcc)
    (it : Item) :
    (processItem sb thr sel trig data [] acc it).changed = acc.changed := by
  by_cases h : it.code ∈ sel
  · cases hnum : to_number (lookupJ data (sellbuyKey sb it)) <;>
      simp [processItem, h, hnum, lookupA]
  · simp [processItem, h]

theorem foldl_changed_of_last_nil (sb : String) (thr : ℚ) (sel trig : List String)
    (data : List (String × JVal)) (items : List Item) (acc : LineAcc) :
    (items.foldl (processItem sb thr sel trig data []) acc).changed = acc.changed := by
  induction items generalizing acc with
  | nil => rfl
  | cons it t ih => rw [List.foldl_cons, ih, processItem_changed_of_last_nil]

theorem build_lines_changed_empty (items : List Item) (cfg : Config)
    (data : List (String × JVal)) :
    (build_lines items cfg data []).2.2 = false :=
  foldl_changed_of_last_nil _ _ _ _ _ items ⟨[], [], false⟩

theorem processItem_newlast_isSome (sb : String) (thr : ℚ) (sel trig : List String)
    (data : List (String × JVal)) (last : List (String × ℚ)) (acc : LineAcc)
    (it : Item) (k : String) (h : (lookupA acc.new_last k).isSome = true) :
    (lookupA (processItem sb thr sel trig data last acc it).new_last k).isSome = true := by
  by_cases hs : it.code ∈ sel
  · cases hnum : to_number (lookupJ data (sellbuyKey sb it)) with
    | none => simpa [processItem, hs, hnum] using h
    | some n =>
      simp only [processItem, hs, hnum]
      simp only [not_true_eq_false, if_false]
      exact lookupA_updAssoc_isSome _ _ _ _ h
  · simpa [processItem, hs] using h

theorem foldl_newlast_isSome (sb : String) (thr : ℚ) (sel trig : List String)
    (data : List (String × JVal)) (last : List (String × ℚ)) (items : List Item)
    (acc : LineAcc) (k : String) (h : (lookupA acc.new_last k).isSome = true) :
    (lookupA ((items.foldl (processItem sb thr sel trig data last) acc).new_last) k).isSome
      = true := by
  induction items generalizing acc with
  | nil => exact h
  | cons it t ih =>
    rw [List.foldl_cons]
    exact ih _ (processItem_newlast_isSome sb thr sel trig data last acc it k h)

theorem foldl_lookup_eq_of_no_number (sb : String) (thr : ℚ) (sel trig : List String)
    (data : List (String × JVal)) (last : List (String × ℚ)) (items : List Item)
    (acc : LineAcc) (k : String)
    (h : ∀ it ∈ items, it.code = k → to_number (lookupJ data (sellbuyKey sb it)) = none) :
    lookupA ((items.foldl (processItem sb thr sel trig data last) acc).new_last) k
      = lookupA acc.new_last k := by
  induction items generalizing acc with
  | nil => rfl
  | cons it t ih =>
    rw [List.foldl_cons, ih _ (fun j hj hc => h j (List.mem_cons_of_mem it hj) hc)]
    by_cases hs : it.code ∈ sel
    · by_cases hck : it.code = k
      · have hn := h it (List.mem_cons_self it t) hck
        simp [processItem, hs, hn]
      · cases hnum : to_number (lookupJ data (sellbuyKey sb it)) with
        | none => simp [processItem, hs, hnum]
        | some n => simp [processItem, hs, hnum, lookupA_updAssoc, hck]
    · simp [processItem, hs]

theorem fmt_value_of_none (v : Option JVal) (h : to_number v = none) :
    fmt_value v = "-" := by
  unfold fmt_value
  rw [h]

theorem timeLt_irrefl (a : TimeHM) : ¬ a.Lt a := by
  unfold TimeHM.Lt; omega

theorem timeLt_asymm (a b : TimeHM) (h : a.Lt b) : ¬ b.Lt a := by
  unfold TimeHM.Lt at *; omega

theorem sentMessage_none_of_unchanged (ch : Chat) (now : DateTime)
    (data : List (String × JVal))
    (ho : ch.cfg.only_if_changed = true)
    (h1 : (build_lines CURRENCIES ch.cfg data ch.state.last_cur).2.2 = false)
    (h2 : (build_lines COINS ch.cfg data ch.state.last_coin).2.2 = false)
    (h3 : (build_lines METALS ch.cfg data ch.state.last_metal).2.2 = false) :
    sentMessage? (send_for_chat (some ch) false now (.ok data)) = none := by
  unfold send_for_chat
  by_cases g1 : (false = false ∧ (ch.approved = false ∨ ch.cfg.auto_send = false))
  · simp [sentMessage?, g1]
  · by_cases g2 : (false = false ∧ in_quiet now ch.cfg.quiet = true)
    · simp [sentMessage?, g1, g2]
    · by_cases g3 : (false = false ∧ ch.state.last_slot = some (now_slot_tehran now))
      · simp [sentMessage?, g1, g2, g3]
      · simp [sentMessage?, g1, g2, g3, ho, h1, h2, h3]
        split_ifs <;> rfl

theorem send_quiet_noop (ch : Chat) (now : DateTime)
    (fr : Except Unit (List (String × JVal)))
    (h : in_quiet now ch.cfg.quiet = true) :
    send_for_chat (some ch) false now fr = .ok ⟨some ch.state, none⟩ := by
  unfold send_for_chat
  by_cases g1 : (false = false ∧ (ch.approved = false ∨ ch.cfg.auto_send = false))
  · simp [g1]
  · simp [g1, h]

theorem send_slot_dedup (ch : Chat) (now : DateTime) (data : List (String × JVal))
    (h : ch.state.last_slot = some (now_slot_tehran now)) :
    send_for_chat (some ch) false now (.ok data) = .ok ⟨some ch.state, none⟩ := by
  unfold send_for_chat
  by_cases g1 : (false = false ∧ (ch.approved = false ∨ ch.cfg.auto_send = false))
  · simp [g1]
  · by_cases g2 : (false = false ∧ in_quiet now ch.cfg.quiet = true)
    · simp [g1, g2]
    · simp [g1, g2, h]

theorem send_suppressed (ch : Chat) (now : DateTime) (data : List (String × JVal))
    (hap : ch.approved = true) (hau : ch.cfg.auto_send = true)
    (hq : in_quiet now ch.cfg.quiet = false)
    (ho : ch.cfg.only_if_changed = true)
    (h1 : (build_lines CURRENCIES ch.cfg data ch.state.last_cur).2.2 = false)
    (h2 : (build_lines COINS ch.cfg data ch.state.last_coin).2.2 = false)
    (h3 : (build_lines METALS ch.cfg data ch.state.last_metal).2.2 = false)
    (hs : ch.state.last_slot ≠ some (now_slot_tehran now)) :
    send_for_chat (some ch) false now (.ok data) =
      .ok ⟨some ⟨(build_lines CURRENCIES ch.cfg data ch.state.last_cur).2.1,
                 (build_lines COINS ch.cfg data ch.state.last_coin).2.1,
                 (build_lines METALS ch.cfg data ch.state.last_metal).2.1,
                 some (now_slot_tehran now)⟩, none⟩ := by
  unfold send_for_chat
  simp [hap, hau, hq, ho, h1, h2, h3, hs]

theorem send_fetch_error (ch : Chat) (now : DateTime)
    (hap : ch.approved = true) (hau : ch.cfg.auto_send = true)
    (hq : in_quiet now ch.cfg.quiet = false) :
    send_for_chat (some ch) false now (.error ()) = .error () := by
  unfold send_for_chat
  simp [hap, hau, hq]

theorem sender_tick_all_fetch_error (now : DateTime)
    (fetchFor : Int → Except Unit (List (String × JVal)))
    (hf : ∀ i, fetchFor i = .error ()) (chats : List Chat) :
    sender_tick now fetchFor chats = chats.map (fun ch => (ch, none)) := by
  induction chats with
  | nil => rfl
  | cons ch t ih =>
    unfold sender_tick at ih ⊢
    rw [List.map_cons, List.map_cons, ih]
    congr 1
    by_cases g1 : (ch.approved = false ∨ ch.cfg.auto_send = false)
    · simp [g1]
    · have g1' := g1
      push_neg at g1'
      obtain ⟨hap, hau⟩ := g1'
      rw [Bool.ne_false_iff] at hap hau
      by_cases g2 : now.minute % (if ch.cfg.interval_min = 0 then 5 else ch.cfg.interval_min) ≠ 0
      · simp [g1, g2]
      · by_cases g3 : in_quiet now ch.cfg.quiet = true
        · simp [g1, g2, g3]
        · have hq : in_quiet now ch.cfg.quiet = false := by
            rcases Bool.eq_false_or_eq_true (in_quiet now ch.cfg.quiet) with h | h
            · exact absurd h g3
            · exact h
          simp [g1, g2, g3, hf ch.chat_id, send_fetch_error ch now hap hau hq]

theorem build_lines_usd_changed (thr prev num : ℚ) :
    (build_lines CURRENCIES (cfgThr thr) [("usd1", JVal.jnum num)] [("usd", prev)]).2.2
      = (if thr ≤ 0 then (if eps < ratAbs (num - prev) then true else false)
         else (if thr ≤ ratAbs (num - prev) then true else false)) := by
  have hskip : ∀ it ∈ usdRest, it.code ∉ (["usd"] : List String) := by decide
  have key : (build_lines CURRENCIES (cfgThr thr) [("usd1", JVal.jnum num)] [("usd", prev)]).2.2
      = ((usdItem :: usdRest).foldl
          (processItem "sell" thr ["usd"] ["usd"] [("usd1", JVal.jnum num)] [("usd", prev)])
          ⟨[], [("usd", prev)], false⟩).changed := rfl
  rw [key, List.foldl_cons,
    foldl_processItem_skip "sell" thr ["usd"] ["usd"] _ _ usdRest _ hskip]
  rfl

/- ------------------------------------------------------------------ -/
/- Claim theorems                                                      -/
/- ------------------------------------------------------------------ -/

/-- C1 (counterexample): with an empty previous-values map, a trigger key
(`usd1`) present in the current snapshot, and only-on-change set, the change
flag computed by `build_lines` is `false` and the scheduled tick sends no
message — the first scheduled delivery IS suppressed by the only-on-change
gate, contrary to the claim. -/
theorem C1_counterexample :
    lookupJ snapB "usd1" = some (.jint 500000)
    ∧ cfgOnly.triggersFor "cur" = ["usd"]
    ∧ cfgOnly.only_if_changed = true
    ∧ (build_lines CURRENCIES cfgOnly snapB []).2.2 = false
    ∧ sentMessage? (send_for_chat (some chatFirst) false tickB (.ok snapB)) = none := by
  decide

/-- C1 (amended): for every target whose stored previous-values map is empty
(first run), change evaluation skips every key (there is no baseline entry to
compare against), so the change flag is `false`, and with only-on-change set
the first scheduled tick sends no message. -/
theorem C1_first_run_reports_no_change :
    (∀ (items : List Item) (cfg : Config) (data : List (String × JVal)),
        (build_lines items cfg data []).2.2 = false)
    ∧ (∀ (ch : Chat) (now : DateTime) (data : List (String × JVal)),
        ch.cfg.only_if_changed = true →
        ch.state.last_cur = [] → ch.state.last_coin = [] →
        ch.state.last_metal = [] →
        sentMessage? (send_for_chat (some ch) false now (.ok data)) = none) := by
  constructor
  · exact fun items cfg data => build_lines_changed_empty items cfg data
  · intro ch now data ho hc hn hm
    exact sentMessage_none_of_unchanged ch now data ho
      (by rw [hc]; exact build_lines_changed_empty _ _ _)
      (by rw [hn]; exact build_lines_changed_empty _ _ _)
      (by rw [hm]; exact build_lines_changed_empty _ _ _)

/-- C1 (witness): the amended theorem applied to a concrete first-run chat. -/
theorem C1_witness :
    sentMessage? (send_for_chat (some chatFirst) false tickC (.ok snapC)) = none
    ∧ (build_lines COINS cfgOnly snapC []).2.2 = false :=
  ⟨C1_first_run_reports_no_change.2 chatFirst tickC snapC rfl rfl rfl rfl,
   C1_first_run_reports_no_change.1 COINS cfgOnly snapC⟩

/-- C2: when only-on-change is set and no trigger key changed, a scheduled
(non-forced) tick sends no message but still persists the refreshed
last-values together with the new slot marker; concretely, with interval 5,
only-on-change on, threshold 0 and trigger `usd1`, an unchanged
`usd1 = 500000` is suppressed and a later `usd1 = 500500` is delivered with
`500500` recorded as the last-delivered value. -/
theorem C2_suppressed_tick_persists :
    (∀ (ch : Chat) (now : DateTime) (data : List (String × JVal)),
        ch.approved = true → ch.cfg.auto_send = true →
        in_quiet now ch.cfg.quiet = false →
        ch.cfg.only_if_changed = true →
        (build_lines CURRENCIES ch.cfg data ch.state.last_cur).2.2 = false →
        (build_lines COINS ch.cfg data ch.state.last_coin).2.2 = false →
        (build_lines METALS ch.cfg data ch.state.last_metal).2.2 = false →
        ch.state.last_slot ≠ some (now_slot_tehran now) →
        send_for_chat (some ch) false now (.ok data) =
          .ok ⟨some ⟨(build_lines CURRENCIES ch.cfg data ch.state.last_cur).2.1,
                     (build_lines COINS ch.cfg data ch.state.last_coin).2.1,
                     (build_lines METALS ch.cfg data ch.state.last_metal).2.1,
                     some (now_slot_tehran now)⟩, none⟩)
    ∧ send_for_chat (some chatB) false tickB (.ok snapB) = .ok ⟨some stateB, none⟩
    ∧ lookupA stateB.last_cur "usd" = some 500000
    ∧ (sentMessage? (send_for_chat (some chatC) false tickC (.ok snapC))).isSome = true
    ∧ (storedState? (send_for_chat (some chatC) false tickC (.ok snapC))).map
        (fun st => lookupA st.last_cur "usd") = some (some 500500) := by
  refine ⟨send_suppressed, by decide, by decide, by decide, by decide⟩

/-- C2 (witness): the universal suppression part applied to the concrete
snapshot-B tick. -/
theorem C2_witness :
    send_for_chat (some chatB) false tickB (.ok snapB) =
      .ok ⟨some ⟨(build_lines CURRENCIES chatB.cfg snapB chatB.state.last_cur).2.1,
                 (build_lines COINS chatB.cfg snapB chatB.state.last_coin).2.1,
                 (build_lines METALS chatB.cfg snapB chatB.state.last_metal).2.1,
                 some (now_slot_tehran tickB)⟩, none⟩ :=
  C2_suppressed_tick_persists.1 chatB tickB snapB rfl rfl (by decide) rfl
    (by decide) (by decide) (by decide) (by decide)

/-- C3: on a scheduled (non-forced) tick, if the persisted `last_slot`
already equals the current minute slot, then no message is sent and the
stored state is exactly what it was — replaying an aligned slot already
marked processed never produces a second delivery. -/
theorem C3_slot_replay_idempotent (ch : Chat) (now : DateTime)
    (data : List (String × JVal))
    (h : ch.state.last_slot = some (now_slot_tehran now)) :
    send_for_chat (some ch) false now (.ok data) = .ok ⟨some ch.state, none⟩ :=
  send_slot_dedup ch now data h

/-- C3 (witness): replaying the `12:05` slot for a chat already marked with
`12:05` yields no message and an unchanged stored state. -/
theorem C3_witness :
    send_for_chat (some chatC) false tickB (.ok snapC) = .ok ⟨some chatC.state, none⟩ :=
  C3_slot_replay_idempotent chatC tickB snapC (by decide)

/-- C4: for any parsed quiet window, `in_quiet` is containment in
`[start, stop)` when `start < stop`, wraps midnight (`t ≥ start` or
`t < stop`) when `start > stop`, and is never quiet when `start = stop`;
for the window `23:00-07:00`, `23:30` and `03:00` are quiet while `12:00`
and `07:00` are not. -/
theorem C4_quiet_window_semantics :
    (∀ (now : DateTime) (s : String) (start stop : TimeHM),
        parse_quiet s = some (start, stop) →
        ((start.Lt stop →
            (in_quiet now s = true ↔ start.Le now.timeOf ∧ now.timeOf.Lt stop))
         ∧ (stop.Lt start →
            (in_quiet now s = true ↔ start.Le now.timeOf ∨ now.timeOf.Lt stop))
         ∧ (start = stop → in_quiet now s = false)))
    ∧ in_quiet ⟨2025, 1, 1, 23, 30⟩ "23:00-07:00" = true
    ∧ in_quiet ⟨2025, 1, 1, 3, 0⟩ "23:00-07:00" = true
    ∧ in_quiet ⟨2025, 1, 1, 12, 0⟩ "23:00-07:00" = false
    ∧ in_quiet ⟨2025, 1, 1, 7, 0⟩ "23:00-07:00" = false := by
  refine ⟨?_, by decide, by decide, by decide, by decide⟩
  intro now s start stop hp
  have hs : s ≠ "" := by
    intro he
    rw [he, show parse_quiet "" = none from by decide] at hp
    exact Option.noConfusion hp
  refine ⟨?_, ?_, ?_⟩
  · intro hlt
    have hne : start ≠ stop := by
      intro he; rw [he] at hlt; exact timeLt_irrefl stop hlt
    simp [in_quiet, hs, hp, hne, hlt]
  · intro hlt
    have hne : start ≠ stop := by
      intro he; rw [he] at hlt; exact timeLt_irrefl stop hlt
    have hnlt : ¬ start.Lt stop := timeLt_asymm stop start hlt
    simp [in_quiet, hs, hp, hne, hnlt]
  · intro he
    simp [in_quiet, hs, hp, he]

/-- C4 (witness): the parsed-window part applied to two further windows, one
wrapping midnight and one not. -/
theorem C4_witness :
    in_quiet ⟨2025, 1, 1, 2, 15⟩ "22:30-06:45" = true
    ∧ in_quiet ⟨2025, 1, 1, 10, 0⟩ "09:15-11:00" = true :=
  ⟨((C4_quiet_window_semantics.1 ⟨2025, 1, 1, 2, 15⟩ "22:30-06:45" ⟨22, 30⟩ ⟨6, 45⟩
      (by decide)).2.1 (by decide)).mpr (Or.inr (by decide)),
   ((C4_quiet_window_semantics.1 ⟨2025, 1, 1, 10, 0⟩ "09:15-11:00" ⟨9, 15⟩ ⟨11, 0⟩
      (by decide)).1 (by decide)).mpr ⟨by decide, by decide⟩⟩

/-- C5 (counterexample): a scheduled tick at `23:30` inside the
`23:00-07:00` window sends nothing, but the stored slot marker is NOT
updated — the stored state is returned verbatim with its old marker, and the
scheduler loop likewise skips the chat — contrary to the claim that a quiet
tick still updates the slot marker. -/
theorem C5_counterexample :
    in_quiet tickNight chatQuiet.cfg.quiet = true
    ∧ send_for_chat (some chatQuiet) false tickNight (.ok snapB)
        = .ok ⟨some chatQuiet.state, none⟩
    ∧ chatQuiet.state.last_slot ≠ some (now_slot_tehran tickNight)
    ∧ sender_tick tickNight (fun _ => .ok snapB) [chatQuiet] = [(chatQuiet, none)] := by
  decide

/-- C5 (amended): a scheduled tick inside the quiet window performs no fetch,
no change detection and no delivery, and leaves the target's persisted state
— including the slot marker — completely unchanged (the quiet gate returns
before the fetch, so the conclusion holds for any fetch outcome). -/
theorem C5_quiet_tick_writes_nothing :
    (∀ (ch : Chat) (now : DateTime) (fr : Except Unit (List (String × JVal))),
        in_quiet now ch.cfg.quiet = true →
        send_for_chat (some ch) false now fr = .ok ⟨some ch.state, none⟩)
    ∧ (∀ (now : DateTime) (fetchFor : Int → Except Unit (List (String × JVal)))
        (ch : Chat),
        in_quiet now ch.cfg.quiet = true →
        sender_tick now fetchFor [ch] = [(ch, none)]) := by
  constructor
  · exact send_quiet_noop
  · intro now fetchFor ch h
    unfold sender_tick
    simp only [List.map_cons, List.map_nil, List.cons.injEq, and_true]
    by_cases g1 : (ch.approved = false ∨ ch.cfg.auto_send = false)
    · simp [g1]
    · by_cases g2 : now.minute % (if ch.cfg.interval_min = 0 then 5
          else ch.cfg.interval_min) ≠ 0
      · simp [g1, g2]
      · simp [g1, g2, h]

/-- C5 (witness): the amended theorem at the concrete quiet tick, fed an
erroring fetch to exhibit that no fetch is even consulted. -/
theorem C5_witness :
    send_for_chat (some chatQuiet) false tickNight (.error ())
      = .ok ⟨some chatQuiet.state, none⟩
    ∧ sender_tick tickNight (fun _ => .error ()) [chatQuiet] = [(chatQuiet, none)] :=
  ⟨C5_quiet_tick_writes_nothing.1 chatQuiet tickNight (.error ()) (by decide),
   C5_quiet_tick_writes_nothing.2 tickNight (fun _ => .error ()) chatQuiet (by decide)⟩

/-- C6 (counterexample): with the threshold set to zero, a nonzero difference
of `1e-10` (below the `1e-9` comparison epsilon) does NOT report a change,
contrary to the claim that any nonzero difference reports changed. -/
theorem C6_counterexample :
    (500000 + mkRat 1 10000000000 : ℚ) ≠ 500000
    ∧ lookupJ snapEps "usd1" = some (.jnum (500000 + mkRat 1 10000000000))
    ∧ (build_lines CURRENCIES (cfgThr 0) snapEps [("usd", 500000)]).2.2 = false := by
  decide

/-- C6 (amended): for a trigger key present in both baseline and snapshot,
with `threshold_abs = 100` a difference of exactly 100 reports changed and
any difference below 100 (such as 99.999) does not; with the threshold set to
zero, a difference exceeding the `1e-9` comparison epsilon reports changed,
while a difference of at most `1e-9` (even a nonzero one) does not. -/
theorem C6_threshold_boundary :
    (∀ prev num : ℚ, ratAbs (num - prev) = 100 →
        (build_lines CURRENCIES (cfgThr 100)
          [("usd1", JVal.jnum num)] [("usd", prev)]).2.2 = true)
    ∧ (∀ prev num : ℚ, ratAbs (num - prev) < 100 →
        (build_lines CURRENCIES (cfgThr 100)
          [("usd1", JVal.jnum num)] [("usd", prev)]).2.2 = false)
    ∧ (∀ thr prev num : ℚ, thr ≤ 0 → eps < ratAbs (num - prev) →
        (build_lines CURRENCIES (cfgThr thr)
          [("usd1", JVal.jnum num)] [("usd", prev)]).2.2 = true)
    ∧ (∀ thr prev num : ℚ, thr ≤ 0 → ratAbs (num - prev) ≤ eps →
        (build_lines CURRENCIES (cfgThr thr)
          [("usd1", JVal.jnum num)] [("usd", prev)]).2.2 = false) := by
  refine ⟨?_, ?_, ?_, ?_⟩
  · intro prev num h
    rw [build_lines_usd_changed, if_neg (by norm_num), h, if_pos le_rfl]
  · intro prev num h
    rw [build_lines_usd_changed, if_neg (by norm_num), if_neg (not_le.mpr h)]
  · intro thr prev num h1 h2
    rw [build_lines_usd_changed, if_pos h1, if_pos h2]
  · intro thr prev num h1 h2
    rw [build_lines_usd_changed, if_pos h1, if_neg (not_lt.mpr h2)]

/-- C6 (witness): the amended theorem at concrete differences of exactly 100,
of 99.999, of 500 (threshold zero), and of `1e-10` (threshold zero). -/
theorem C6_witness :
    (build_lines CURRENCIES (cfgThr 100)
        [("usd1", JVal.jnum 500100)] [("usd", 500000)]).2.2 = true
    ∧ (build_lines CURRENCIES (cfgThr 100)
        [("usd1", JVal.jnum (500000 + mkRat 99999 1000))] [("usd", 500000)]).2.2 = false
    ∧ (build_lines CURRENCIES (cfgThr 0)
        [("usd1", JVal.jnum 500500)] [("usd", 500000)]).2.2 = true
    ∧ (build_lines CURRENCIES (cfgThr 0)
        [("usd1", JVal.jnum (500000 + mkRat 1 10000000000))] [("usd", 500000)]).2.2 = false :=
  ⟨C6_threshold_boundary.1 500000 500100 (by decide),
   C6_threshold_boundary.2.1 500000 (500000 + mkRat 99999 1000) (by decide),
   C6_threshold_boundary.2.2.1 0 500000 500500 (by decide) (by decide),
   C6_threshold_boundary.2.2.2 0 500000 (500000 + mkRat 1 10000000000)
     (by decide) (by decide)⟩

/-- C7 (counterexample): when both POSTs fail but the retry's re-extraction
succeeds, the failure propagates yet the token cache is NOT left empty — it
holds the retry's token — and the next call within the validity window uses
the cached token without any extraction (even an erroring extractor is never
consulted), contrary to the claim. -/
theorem C7_counterexample :
    (fetch_json ⟨some "t0", 0⟩ 0 (.ok "tx") (.ok "t1")
        (fun _ => .error ()) (fun _ => .error ())).1 = .error ()
    ∧ (fetch_json ⟨some "t0", 0⟩ 0 (.ok "tx") (.ok "t1")
        (fun _ => .error ()) (fun _ => .error ())).2.param = some "t1"
    ∧ fetchParamStep ⟨some "t1", 0⟩ 300 (.error ()) = .ok ("t1", ⟨some "t1", 0⟩) := by
  decide

/-- C7 (amended): if the data POST fails on both the primary attempt and the
single retry, `fetch_json` propagates the failure, but the token cache is
never cleared: it holds the token extracted by the retry (timestamped at the
call) — or its previous content when the retry extraction itself raised — so
a call within the 600-second validity window reuses the cached token instead
of re-extracting from scratch. -/
theorem C7_double_post_failure_keeps_token :
    (∀ (st : ClientState) (now : Nat) (e1 : Except Unit String) (t2 tok : String)
        (st1 : ClientState) (p1 p2 : String → Except Unit (List (String × JVal))),
        fetchParamStep st now e1 = .ok (tok, st1) →
        (∀ t, p1 t = .error ()) → (∀ t, p2 t = .error ()) →
        fetch_json st now e1 (.ok t2) p1 p2 = (.error (), ⟨some t2, now⟩))
    ∧ (∀ (st : ClientState) (now : Nat) (e1 : Except Unit String) (tok : String)
        (st1 : ClientState) (p1 p2 : String → Except Unit (List (String × JVal))),
        fetchParamStep st now e1 = .ok (tok, st1) →
        (∀ t, p1 t = .error ()) →
        fetch_json st now e1 (.error ()) p1 p2 = (.error (), st1))
    ∧ (∀ (tok : String) (ts now2 : Nat) (e : Except Unit String),
        ¬ 600 < now2 - ts →
        fetchParamStep ⟨some tok, ts⟩ now2 e = .ok (tok, ⟨some tok, ts⟩)) := by
  refine ⟨?_, ?_, ?_⟩
  · intro st now e1 t2 tok st1 p1 p2 hstep hp1 hp2
    unfold fetch_json
    rw [hstep]
    simp [hp1, hp2]
  · intro st now e1 tok st1 p1 p2 hstep hp1
    unfold fetch_json
    rw [hstep]
    simp [hp1]
  · intro tok ts now2 e h
    unfold fetchParamStep
    simp [h]

/-- C7 (witness): the amended theorem at a concrete fresh-cache double POST
failure. -/
theorem C7_witness :
    fetch_json ⟨some "t0", 50⟩ 100 (.ok "tx") (.ok "t1")
        (fun _ => .error ()) (fun _ => .error ())
      = (.error (), ⟨some "t1", 100⟩) :=
  C7_double_post_failure_keeps_token.1 ⟨some "t0", 50⟩ 100 (.ok "tx") "t1" "t0"
    ⟨some "t0", 50⟩ _ _ (by decide) (fun _ => rfl) (fun _ => rfl)

/-- C8: if the upstream fetch raises on a scheduled tick, `send_for_chat`
propagates the exception before any state write, and one pass of the sender
loop catches it per chat: every chat's stored state is returned unchanged,
no message is sent, and the loop processes the whole chat list instead of
crashing. -/
theorem C8_fetch_error_leaves_state :
    (∀ (ch : Chat) (now : DateTime),
        ch.approved = true → ch.cfg.auto_send = true →
        in_quiet now ch.cfg.quiet = false →
        send_for_chat (some ch) false now (.error ()) = .error ())
    ∧ (∀ (now : DateTime) (fetchFor : Int → Except Unit (List (String × JVal)))
        (chats : List Chat),
        (∀ i, fetchFor i = .error ()) →
        sender_tick now fetchFor chats = chats.map (fun ch => (ch, none))) :=
  ⟨send_fetch_error,
   fun now fetchFor chats hf => sender_tick_all_fetch_error now fetchFor hf chats⟩

/-- C8 (witness): one failing tick over a two-chat list leaves both chats'
states untouched and sends nothing. -/
theorem C8_witness :
    sender_tick tickB (fun _ => .error ()) [chatB, chatOff]
      = [(chatB, none), (chatOff, none)] :=
  C8_fetch_error_leaves_state.2 tickB (fun _ => .error ()) [chatB, chatOff]
    (fun _ => rfl)

/-- C9: `in_quiet` is total — it returns a boolean for every datetime and
every quiet string — and any string that `parse_quiet` rejects (the empty
string included) yields `false`: a malformed quiet setting silently disables
quiet suppression. -/
theorem C9_malformed_quiet_is_disabled :
    (∀ (now : DateTime) (s : String),
        in_quiet now s = true ∨ in_quiet now s = false)
    ∧ (∀ (now : DateTime) (s : String),
        parse_quiet s = none → in_quiet now s = false)
    ∧ (∀ now : DateTime, in_quiet now "" = false) := by
  refine ⟨?_, ?_, ?_⟩
  · intro now s
    cases h : in_quiet now s
    · exact Or.inr rfl
    · exact Or.inl rfl
  · intro now s hp
    unfold in_quiet
    by_cases hs : s = ""
    · simp [hs]
    · simp [hs, hp]
  · intro now
    rfl

/-- C9 (witness): three malformed quiet strings — free text, out-of-range
fields, and a missing colon — all disable the window. -/
theorem C9_witness :
    in_quiet ⟨2025, 1, 1, 12, 0⟩ "not-a-window" = false
    ∧ in_quiet ⟨2025, 1, 1, 12, 0⟩ "24:00-70:99" = false
    ∧ in_quiet ⟨2025, 1, 1, 12, 0⟩ "23:00-0800" = false :=
  ⟨C9_malformed_quiet_is_disabled.2.1 _ _ (by decide),
   C9_malformed_quiet_is_disabled.2.1 _ _ (by decide),
   C9_malformed_quiet_is_disabled.2.1 _ _ (by decide)⟩

/-- C10: `build_lines` never discards a baseline entry (every key of the
input last-values map is still present in the returned map); a key whose
selected upstream value never parses as a number keeps its old baseline value
verbatim; and for a selected item whose value is missing or non-numeric, the
loop body leaves the stored values and the changed flag untouched and renders
the line with `-` and no arrow. -/
theorem C10_baseline_never_discarded :
    (∀ (items : List Item) (cfg : Config) (data : List (String × JVal))
        (last : List (String × ℚ)) (k : String),
        (lookupA last k).isSome = true →
        (lookupA (build_lines items cfg data last).2.1 k).isSome = true)
    ∧ (∀ (items : List Item) (cfg : Config) (data : List (String × JVal))
        (last : List (String × ℚ)) (k : String),
        (∀ it ∈ items, it.code = k →
          to_number (lookupJ data (sellbuyKey cfg.sellbuy it)) = none) →
        lookupA (build_lines items cfg data last).2.1 k = lookupA last k)
    ∧ (∀ (sb : String) (thr : ℚ) (sel trig : List String)
        (data : List (String × JVal)) (last : List (String × ℚ))
        (acc : LineAcc) (it : Item),
        it.code ∈ sel →
        to_number (lookupJ data (sellbuyKey sb it)) = none →
        processItem sb thr sel trig data last acc it
          = ⟨acc.lines ++ [rtl ++ it.emoji ++ " " ++ it.fa ++ " : " ++ "-"],
             acc.new_last, acc.changed⟩) := by
  refine ⟨?_, ?_, ?_⟩
  · intro items cfg data last k h
    exact foldl_newlast_isSome _ _ _ _ data last items ⟨[], last, false⟩ k h
  · intro items cfg data last k h
    exact foldl_lookup_eq_of_no_number _ _ _ _ data last items ⟨[], last, false⟩ k h
  · intro sb thr sel trig data last acc it hs hn
    simp [processItem, hs, hn, fmt_value_of_none _ hn]

/-- C10 (witness): the theorem applied to concrete inputs — an empty
snapshot, a snapshot with a non-numeric `usd1`, and a single loop step over
the `usd` item with no data. -/
theorem C10_witness :
    (lookupA (build_lines CURRENCIES cfgOnly [] stateA.last_cur).2.1 "usd").isSome = true
    ∧ lookupA (build_lines CURRENCIES cfgOnly
        [("usd1", JVal.jstr "n/a")] stateA.last_cur).2.1 "usd" = some 500000
    ∧ processItem "sell" 0 ["usd"] ["usd"] [] [("usd", 500000)]
        ⟨[], [("usd", 500000)], false⟩ usdItem
        = ⟨[rtl ++ usdItem.emoji ++ " " ++ usdItem.fa ++ " : " ++ "-"],
           [("usd", 500000)], false⟩ :=
  ⟨C10_baseline_never_discarded.1 CURRENCIES cfgOnly [] stateA.last_cur "usd" (by decide),
   (C10_baseline_never_discarded.2.1 CURRENCIES cfgOnly [("usd1", JVal.jstr "n/a")]
      stateA.last_cur "usd" (by decide)).trans (by decide),
   C10_baseline_never_discarded.2.2 "sell" 0 ["usd"] ["usd"] [] [("usd", 500000)]
      ⟨[], [("usd", 500000)], false⟩ usdItem (by decide) (by decide)⟩

end Bonbast
